import Mathlib

/-!
Verification of the EnRoute-RouteCalc repository against its specification.

The repository consists of `route_data.py` (hardcoded highway anchor routes,
a polyline densification helper, delivery pair tables and accessors),
`examples.py` (workflows that call the corridor core), and
`point_visualization.py` (rendering). The corridor core itself
(`compute_oriented_bbox_with_min_pairs` / `filter_pairs_in_oriented_bbox`)
is supplied by callers at run time and is not part of the given sources, so
it is modelled here from the specification text; the data and densification
code is embedded directly from `route_data.py`.

Python floats are modelled as exact rationals.
-/

set_option maxHeartbeats 1600000
set_option maxRecDepth 100000

/-- A latitude/longitude coordinate, as in `route_data.py` (`LatLon`). -/
abbrev LatLon : Type := ℚ × ℚ

/-- Dummy point used only as the default of out-of-range list lookups. -/
def pt0 : LatLon := (0, 0)

/-- The interpolated point `p + t * (q - p)` with `t = j / (k + 1)`,
as computed inside the loop of `densify_polyline` in `route_data.py`. -/
def interpPoint (p q : LatLon) (j k : ℕ) : LatLon :=
  (p.1 + ((j : ℚ) / ((k : ℚ) + 1)) * (q.1 - p.1),
   p.2 + ((j : ℚ) / ((k : ℚ) + 1)) * (q.2 - p.2))

/-- The `k` interpolated points of one segment, for `j = 1 .. k`
(the inner `for k in range(1, points_per_segment + 1)` loop). -/
def interpSeg (p q : LatLon) (k : ℕ) : List LatLon :=
  (List.range k).map (fun j => interpPoint p q (j + 1) k)

/-- The body of the segment loop of `densify_polyline`: for each consecutive
pair of vertices emit the interpolated points, and after the final segment
emit the final vertex (the `if i == len(polyline) - 2` branch). -/
def densifyAux (k : ℕ) : List LatLon → List LatLon
  | p :: q :: rest => interpSeg p q k ++ densifyAux k (q :: rest)
  | l => l

/-- `densify_polyline` from `route_data.py` lines 97-133: returns a copy of
the input when it has fewer than two points or `points_per_segment <= 0`;
otherwise the first vertex, then per segment the interpolated points, and
finally the last vertex. -/
def densify_polyline (polyline : List LatLon) (points_per_segment : ℤ) : List LatLon :=
  if polyline.length < 2 ∨ points_per_segment ≤ 0 then polyline
  else
    match polyline with
    | p :: rest => p :: densifyAux points_per_segment.toNat (p :: rest)
    | [] => []

lemma densifyAux_ne_nil (k : ℕ) (l : List LatLon) (h : l ≠ []) : densifyAux k l ≠ [] := by
  induction l with
  | nil => exact absurd rfl h
  | cons p rest ih =>
    cases rest with
    | nil => simp [densifyAux]
    | cons q rest2 =>
      have := ih (by simp)
      simp only [densifyAux]
      intro hcontra
      rcases List.append_eq_nil.mp hcontra with ⟨-, h2⟩
      exact this h2

lemma densifyAux_length (k : ℕ) (l : List LatLon) (h : l ≠ []) :
    (densifyAux k l).length = (l.length - 1) * k + 1 := by
  induction l with
  | nil => exact absurd rfl h
  | cons p rest ih =>
    cases rest with
    | nil => simp [densifyAux]
    | cons q rest2 =>
      have hrec := ih (by simp)
      simp only [densifyAux, List.length_append, List.length_cons] at *
      rw [hrec]
      simp [interpSeg]
      ring

lemma densifyAux_getLast? (k : ℕ) (l : List LatLon) (h : l ≠ []) :
    (densifyAux k l).getLast? = l.getLast? := by
  induction l with
  | nil => exact absurd rfl h
  | cons p rest ih =>
    cases rest with
    | nil => simp [densifyAux]
    | cons q rest2 =>
      have hrec := ih (by simp)
      simp only [densifyAux]
      obtain ⟨y, hy⟩ : ∃ y, (q :: rest2).getLast? = some y :=
        Option.isSome_iff_exists.mp (List.getLast?_isSome.mpr (by simp))
      rw [List.getLast?_append, hrec, hy, List.getLast?_cons_cons, hy]
      rfl

lemma densifyAux_mem (k : ℕ) (l : List LatLon) (x : LatLon) (hx : x ∈ densifyAux k l) :
    l.getLast? = some x ∨
    ∃ i j, i + 1 < l.length ∧ 1 ≤ j ∧ j ≤ k ∧
      x = interpPoint (l.getD i pt0) (l.getD (i + 1) pt0) j k := by
  induction l with
  | nil => simp [densifyAux] at hx
  | cons p rest ih =>
    cases rest with
    | nil =>
      simp only [densifyAux, List.mem_singleton] at hx
      subst hx
      exact Or.inl rfl
    | cons q rest2 =>
      simp only [densifyAux, List.mem_append] at hx
      rcases hx with hseg | hrec
      · simp only [interpSeg, List.mem_map, List.mem_range] at hseg
        obtain ⟨j, hj, hxj⟩ := hseg
        refine Or.inr ⟨0, j + 1, by simp, by omega, by omega, ?_⟩
        simpa using hxj.symm
      · rcases ih hrec with hlast | ⟨i, j, hi, hj1, hj2, hxi⟩
        · left
          rw [List.getLast?_cons_cons]
          exact hlast
        · refine Or.inr ⟨i + 1, j, by simpa using Nat.succ_lt_succ hi, hj1, hj2, ?_⟩
          simpa using hxi

lemma densify_polyline_mem (poly : List LatLon) (k : ℤ) (hn : 2 ≤ poly.length) (hk : 1 ≤ k)
    (x : LatLon) (hx : x ∈ densify_polyline poly k) :
    poly.head? = some x ∨ poly.getLast? = some x ∨
    ∃ i j, i + 1 < poly.length ∧ 1 ≤ j ∧ j ≤ k.toNat ∧
      x = interpPoint (poly.getD i pt0) (poly.getD (i + 1) pt0) j k.toNat := by
  have hguard : ¬(poly.length < 2 ∨ k ≤ 0) := by omega
  cases poly with
  | nil => simp at hn
  | cons p rest =>
    rw [densify_polyline, if_neg hguard] at hx
    rcases List.mem_cons.mp hx with hxp | hxa
    · subst hxp
      exact Or.inl rfl
    · rcases densifyAux_mem k.toNat (p :: rest) x hxa with hlast | hint
      · exact Or.inr (Or.inl hlast)
      · exact Or.inr (Or.inr hint)

lemma densify_polyline_eq_cons (p : LatLon) (rest : List LatLon) (k : ℤ)
    (hn : 2 ≤ (p :: rest).length) (hk : 1 ≤ k) :
    densify_polyline (p :: rest) k = p :: densifyAux k.toNat (p :: rest) := by
  have hguard : ¬((p :: rest).length < 2 ∨ k ≤ 0) := by omega
  rw [densify_polyline, if_neg hguard]

/-- C8: when the polyline has fewer than two points or `points_per_segment` is
not positive, `densify_polyline` returns the input list unchanged and raises
no error. -/
theorem densify_polyline_passthrough (poly : List LatLon) (k : ℤ)
    (h : poly.length < 2 ∨ k ≤ 0) : densify_polyline poly k = poly := by
  rw [densify_polyline.eq_def, if_pos h]

theorem densify_polyline_passthrough_witness :
    densify_polyline [((0 : ℚ), (0 : ℚ))] 4 = [((0 : ℚ), (0 : ℚ))] :=
  densify_polyline_passthrough [((0 : ℚ), (0 : ℚ))] 4 (by decide)

/-- C6: with at least two input points and a positive `points_per_segment`,
every element of the densified polyline is the first input point, the last
input point, or a linear interpolation `p_i + (j/(k+1)) * (p_(i+1) - p_i)`
between two consecutive input points with `1 ≤ j ≤ k`. -/
theorem densify_polyline_elements (poly : List LatLon) (k : ℤ) (hn : 2 ≤ poly.length)
    (hk : 1 ≤ k) (x : LatLon) (hx : x ∈ densify_polyline poly k) :
    poly.head? = some x ∨ poly.getLast? = some x ∨
    ∃ i j, i + 1 < poly.length ∧ 1 ≤ j ∧ j ≤ k.toNat ∧
      x = interpPoint (poly.getD i pt0) (poly.getD (i + 1) pt0) j k.toNat :=
  densify_polyline_mem poly k hn hk x hx

theorem densify_polyline_elements_witness :
    ([((0 : ℚ), (0 : ℚ)), ((2 : ℚ), (0 : ℚ))] : List LatLon).head? = some ((1 : ℚ), (0 : ℚ)) ∨
    ([((0 : ℚ), (0 : ℚ)), ((2 : ℚ), (0 : ℚ))] : List LatLon).getLast? = some ((1 : ℚ), (0 : ℚ)) ∨
    ∃ i j, i + 1 < ([((0 : ℚ), (0 : ℚ)), ((2 : ℚ), (0 : ℚ))] : List LatLon).length ∧ 1 ≤ j ∧
      j ≤ (1 : ℤ).toNat ∧
      ((1 : ℚ), (0 : ℚ)) =
        interpPoint (([((0 : ℚ), (0 : ℚ)), ((2 : ℚ), (0 : ℚ))] : List LatLon).getD i pt0)
          (([((0 : ℚ), (0 : ℚ)), ((2 : ℚ), (0 : ℚ))] : List LatLon).getD (i + 1) pt0) j
          (1 : ℤ).toNat :=
  densify_polyline_elements [((0 : ℚ), (0 : ℚ)), ((2 : ℚ), (0 : ℚ))] 1 (by decide) (by decide)
    ((1 : ℚ), (0 : ℚ))
    (by norm_num [densify_polyline, densifyAux, interpSeg, interpPoint, List.range_succ])

/-- C9: with `n ≥ 2` input points and `k ≥ 1` subdivisions per segment, the
densified polyline has exactly `(n - 1) * k + 2` elements, starts with the
first input point, ends with the last input point, and every element is an
endpoint or an interpolated point (so an interior vertex occurs only if it
coincides with such a point). -/
theorem densify_polyline_shape (poly : List LatLon) (k : ℤ) (hn : 2 ≤ poly.length)
    (hk : 1 ≤ k) :
    (densify_polyline poly k).length = (poly.length - 1) * k.toNat + 2 ∧
    (densify_polyline poly k).head? = poly.head? ∧
    (densify_polyline poly k).getLast? = poly.getLast? ∧
    ∀ x ∈ densify_polyline poly k,
      poly.head? = some x ∨ poly.getLast? = some x ∨
      ∃ i j, i + 1 < poly.length ∧ 1 ≤ j ∧ j ≤ k.toNat ∧
        x = interpPoint (poly.getD i pt0) (poly.getD (i + 1) pt0) j k.toNat := by
  cases poly with
  | nil => simp at hn
  | cons p rest =>
    have hd := densify_polyline_eq_cons p rest k hn hk
    refine ⟨?_, ?_, ?_, fun x hx => densify_polyline_mem _ k hn hk x hx⟩
    · rw [hd]
      have := densifyAux_length k.toNat (p :: rest) (by simp)
      simp only [List.length_cons, this]
    · rw [hd]
      rfl
    · rw [hd]
      obtain ⟨y, hy⟩ : ∃ y, (p :: rest).getLast? = some y :=
        Option.isSome_iff_exists.mp (List.getLast?_isSome.mpr (by simp))
      have haux := densifyAux_getLast? k.toNat (p :: rest) (by simp)
      have hcons : p :: densifyAux k.toNat (p :: rest) = [p] ++ densifyAux k.toNat (p :: rest) := rfl
      rw [hcons, List.getLast?_append, haux, hy]
      rfl

theorem densify_polyline_shape_witness :
    (densify_polyline [((0 : ℚ), (0 : ℚ)), ((1 : ℚ), (1 : ℚ)), ((2 : ℚ), (0 : ℚ))] 2).length =
      (([((0 : ℚ), (0 : ℚ)), ((1 : ℚ), (1 : ℚ)), ((2 : ℚ), (0 : ℚ))] : List LatLon).length - 1) *
        (2 : ℤ).toNat + 2 ∧
    (densify_polyline [((0 : ℚ), (0 : ℚ)), ((1 : ℚ), (1 : ℚ)), ((2 : ℚ), (0 : ℚ))] 2).head? =
      ([((0 : ℚ), (0 : ℚ)), ((1 : ℚ), (1 : ℚ)), ((2 : ℚ), (0 : ℚ))] : List LatLon).head? ∧
    (densify_polyline [((0 : ℚ), (0 : ℚ)), ((1 : ℚ), (1 : ℚ)), ((2 : ℚ), (0 : ℚ))] 2).getLast? =
      ([((0 : ℚ), (0 : ℚ)), ((1 : ℚ), (1 : ℚ)), ((2 : ℚ), (0 : ℚ))] : List LatLon).getLast? ∧
    ∀ x ∈ densify_polyline [((0 : ℚ), (0 : ℚ)), ((1 : ℚ), (1 : ℚ)), ((2 : ℚ), (0 : ℚ))] 2,
      ([((0 : ℚ), (0 : ℚ)), ((1 : ℚ), (1 : ℚ)), ((2 : ℚ), (0 : ℚ))] : List LatLon).head? = some x ∨
      ([((0 : ℚ), (0 : ℚ)), ((1 : ℚ), (1 : ℚ)), ((2 : ℚ), (0 : ℚ))] : List LatLon).getLast? = some x ∨
      ∃ i j, i + 1 < ([((0 : ℚ), (0 : ℚ)), ((1 : ℚ), (1 : ℚ)), ((2 : ℚ), (0 : ℚ))] : List LatLon).length ∧
        1 ≤ j ∧ j ≤ (2 : ℤ).toNat ∧
        x = interpPoint
          (([((0 : ℚ), (0 : ℚ)), ((1 : ℚ), (1 : ℚ)), ((2 : ℚ), (0 : ℚ))] : List LatLon).getD i pt0)
          (([((0 : ℚ), (0 : ℚ)), ((1 : ℚ), (1 : ℚ)), ((2 : ℚ), (0 : ℚ))] : List LatLon).getD (i + 1) pt0)
          j (2 : ℤ).toNat :=
  densify_polyline_shape [((0 : ℚ), (0 : ℚ)), ((1 : ℚ), (1 : ℚ)), ((2 : ℚ), (0 : ℚ))] 2
    (by decide) (by decide)

/-- An origin/destination delivery pair, as in `route_data.py`. -/
abbrev DeliveryPair : Type := LatLon × LatLon

/-- US-101 anchor route from route_data.py, SF to San Jose. -/
def sf_to_sj_us101_anchors : List LatLon := [
  ((37.7749 : ℚ), (-122.4194 : ℚ)),
  ((37.7577 : ℚ), (-122.3953 : ℚ)),
  ((37.7300 : ℚ), (-122.3920 : ℚ)),
  ((37.7060 : ℚ), (-122.4050 : ℚ)),
  ((37.6160 : ℚ), (-122.3920 : ℚ)),
  ((37.5900 : ℚ), (-122.3460 : ℚ)),
  ((37.5500 : ℚ), (-122.3040 : ℚ)),
  ((37.5100 : ℚ), (-122.2700 : ℚ)),
  ((37.4852 : ℚ), (-122.2364 : ℚ)),
  ((37.4419 : ℚ), (-122.1430 : ℚ)),
  ((37.4040 : ℚ), (-122.0790 : ℚ)),
  ((37.3688 : ℚ), (-122.0363 : ℚ)),
  ((37.3541 : ℚ), (-121.9552 : ℚ)),
  ((37.3382 : ℚ), (-121.8863 : ℚ))
]

/-- I-280 anchor route from route_data.py, SF to San Jose. -/
def sf_to_sj_i280_anchors : List LatLon := [
  ((37.7749 : ℚ), (-122.4194 : ℚ)),
  ((37.7440 : ℚ), (-122.4310 : ℚ)),
  ((37.7083 : ℚ), (-122.4500 : ℚ)),
  ((37.6700 : ℚ), (-122.4600 : ℚ)),
  ((37.6300 : ℚ), (-122.4400 : ℚ)),
  ((37.5900 : ℚ), (-122.4200 : ℚ)),
  ((37.5400 : ℚ), (-122.3500 : ℚ)),
  ((37.4600 : ℚ), (-122.2500 : ℚ)),
  ((37.4000 : ℚ), (-122.2200 : ℚ)),
  ((37.3500 : ℚ), (-122.0900 : ℚ)),
  ((37.3200 : ℚ), (-122.0500 : ℚ)),
  ((37.3050 : ℚ), (-121.9200 : ℚ)),
  ((37.3382 : ℚ), (-121.8863 : ℚ))
]

/-- I-80 anchor route from route_data.py, SF to Sacramento. -/
def sf_to_sac_i80_anchors : List LatLon := [
  ((37.7950 : ℚ), (-122.3930 : ℚ)),
  ((37.8200 : ℚ), (-122.3700 : ℚ)),
  ((37.8100 : ℚ), (-122.3000 : ℚ)),
  ((37.8300 : ℚ), (-122.2900 : ℚ)),
  ((37.8700 : ℚ), (-122.3000 : ℚ)),
  ((37.9200 : ℚ), (-122.3300 : ℚ)),
  ((38.0200 : ℚ), (-122.2600 : ℚ)),
  ((38.1100 : ℚ), (-122.2400 : ℚ)),
  ((38.2000 : ℚ), (-122.1200 : ℚ)),
  ((38.2700 : ℚ), (-122.0300 : ℚ)),
  ((38.3600 : ℚ), (-121.9900 : ℚ)),
  ((38.4700 : ℚ), (-121.7800 : ℚ)),
  ((38.5500 : ℚ), (-121.7400 : ℚ)),
  ((38.5800 : ℚ), (-121.5300 : ℚ)),
  ((38.5816 : ℚ), (-121.4944 : ℚ))
]

/-- I-880 anchor route from route_data.py, Oakland to San Jose. -/
def oakland_to_sj_i880_anchors : List LatLon := [
  ((37.8044 : ℚ), (-122.2712 : ℚ)),
  ((37.7900 : ℚ), (-122.2600 : ℚ)),
  ((37.7700 : ℚ), (-122.2400 : ℚ)),
  ((37.7300 : ℚ), (-122.2100 : ℚ)),
  ((37.7000 : ℚ), (-122.1900 : ℚ)),
  ((37.6700 : ℚ), (-122.1500 : ℚ)),
  ((37.6300 : ℚ), (-122.1200 : ℚ)),
  ((37.6000 : ℚ), (-122.0700 : ℚ)),
  ((37.5500 : ℚ), (-122.0400 : ℚ)),
  ((37.5200 : ℚ), (-122.0000 : ℚ)),
  ((37.4700 : ℚ), (-121.9600 : ℚ)),
  ((37.4400 : ℚ), (-121.9200 : ℚ)),
  ((37.4000 : ℚ), (-121.9200 : ℚ)),
  ((37.3500 : ℚ), (-121.9100 : ℚ)),
  ((37.3382 : ℚ), (-121.8863 : ℚ))
]

/-- Delivery pairs along US-101 from route_data.py. -/
def us101_delivery_routes : List DeliveryPair := [
  (((37.7749 : ℚ), (-122.4194 : ℚ)), ((37.6160 : ℚ), (-122.3920 : ℚ))),
  (((37.7577 : ℚ), (-122.3953 : ℚ)), ((37.5500 : ℚ), (-122.3040 : ℚ))),
  (((37.7300 : ℚ), (-122.3920 : ℚ)), ((37.4852 : ℚ), (-122.2364 : ℚ))),
  (((37.6160 : ℚ), (-122.3920 : ℚ)), ((37.4419 : ℚ), (-122.1430 : ℚ))),
  (((37.5900 : ℚ), (-122.3460 : ℚ)), ((37.4040 : ℚ), (-122.0790 : ℚ))),
  (((37.5500 : ℚ), (-122.3040 : ℚ)), ((37.3688 : ℚ), (-122.0363 : ℚ))),
  (((37.5100 : ℚ), (-122.2700 : ℚ)), ((37.3541 : ℚ), (-121.9552 : ℚ))),
  (((37.4852 : ℚ), (-122.2364 : ℚ)), ((37.3382 : ℚ), (-121.8863 : ℚ))),
  (((37.5900 : ℚ), (-122.3460 : ℚ)), ((37.5500 : ℚ), (-122.3040 : ℚ))),
  (((37.5500 : ℚ), (-122.3040 : ℚ)), ((37.5100 : ℚ), (-122.2700 : ℚ))),
  (((37.5100 : ℚ), (-122.2700 : ℚ)), ((37.4852 : ℚ), (-122.2364 : ℚ))),
  (((37.4419 : ℚ), (-122.1430 : ℚ)), ((37.4040 : ℚ), (-122.0790 : ℚ))),
  (((37.4040 : ℚ), (-122.0790 : ℚ)), ((37.3688 : ℚ), (-122.0363 : ℚ))),
  (((37.3688 : ℚ), (-122.0363 : ℚ)), ((37.3541 : ℚ), (-121.9552 : ℚ))),
  (((37.3541 : ℚ), (-121.9552 : ℚ)), ((37.3382 : ℚ), (-121.8863 : ℚ))),
  (((37.7749 : ℚ), (-122.4194 : ℚ)), ((37.3382 : ℚ), (-121.8863 : ℚ))),
  (((37.6160 : ℚ), (-122.3920 : ℚ)), ((37.3382 : ℚ), (-121.8863 : ℚ)))
]

/-- Delivery pairs along I-280 from route_data.py. -/
def i280_delivery_routes : List DeliveryPair := [
  (((37.7749 : ℚ), (-122.4194 : ℚ)), ((37.7083 : ℚ), (-122.4500 : ℚ))),
  (((37.7440 : ℚ), (-122.4310 : ℚ)), ((37.6300 : ℚ), (-122.4400 : ℚ))),
  (((37.7083 : ℚ), (-122.4500 : ℚ)), ((37.5900 : ℚ), (-122.4200 : ℚ))),
  (((37.5900 : ℚ), (-122.4200 : ℚ)), ((37.4600 : ℚ), (-122.2500 : ℚ))),
  (((37.5400 : ℚ), (-122.3500 : ℚ)), ((37.4000 : ℚ), (-122.2200 : ℚ))),
  (((37.4600 : ℚ), (-122.2500 : ℚ)), ((37.3500 : ℚ), (-122.0900 : ℚ))),
  (((37.4000 : ℚ), (-122.2200 : ℚ)), ((37.3200 : ℚ), (-122.0500 : ℚ))),
  (((37.3500 : ℚ), (-122.0900 : ℚ)), ((37.3382 : ℚ), (-121.8863 : ℚ))),
  (((37.7749 : ℚ), (-122.4194 : ℚ)), ((37.3382 : ℚ), (-121.8863 : ℚ))),
  (((37.5900 : ℚ), (-122.4200 : ℚ)), ((37.3382 : ℚ), (-121.8863 : ℚ)))
]

/-- Delivery pairs along I-80 from route_data.py. -/
def i80_delivery_routes : List DeliveryPair := [
  (((37.7950 : ℚ), (-122.3930 : ℚ)), ((37.8100 : ℚ), (-122.3000 : ℚ))),
  (((37.7950 : ℚ), (-122.3930 : ℚ)), ((37.8300 : ℚ), (-122.2900 : ℚ))),
  (((37.8100 : ℚ), (-122.3000 : ℚ)), ((37.8700 : ℚ), (-122.3000 : ℚ))),
  (((37.8300 : ℚ), (-122.2900 : ℚ)), ((37.9200 : ℚ), (-122.3300 : ℚ))),
  (((37.8700 : ℚ), (-122.3000 : ℚ)), ((38.0200 : ℚ), (-122.2600 : ℚ))),
  (((37.9200 : ℚ), (-122.3300 : ℚ)), ((38.1100 : ℚ), (-122.2400 : ℚ))),
  (((38.0200 : ℚ), (-122.2600 : ℚ)), ((38.2000 : ℚ), (-122.1200 : ℚ))),
  (((38.1100 : ℚ), (-122.2400 : ℚ)), ((38.2700 : ℚ), (-122.0300 : ℚ))),
  (((38.2000 : ℚ), (-122.1200 : ℚ)), ((38.3600 : ℚ), (-121.9900 : ℚ))),
  (((38.2700 : ℚ), (-122.0300 : ℚ)), ((38.4700 : ℚ), (-121.7800 : ℚ))),
  (((38.3600 : ℚ), (-121.9900 : ℚ)), ((38.5500 : ℚ), (-121.7400 : ℚ))),
  (((38.4700 : ℚ), (-121.7800 : ℚ)), ((38.5500 : ℚ), (-121.7400 : ℚ))),
  (((38.5500 : ℚ), (-121.7400 : ℚ)), ((38.5816 : ℚ), (-121.4944 : ℚ))),
  (((38.5800 : ℚ), (-121.5300 : ℚ)), ((38.5816 : ℚ), (-121.4944 : ℚ))),
  (((37.7950 : ℚ), (-122.3930 : ℚ)), ((38.5816 : ℚ), (-121.4944 : ℚ))),
  (((37.8700 : ℚ), (-122.3000 : ℚ)), ((38.5816 : ℚ), (-121.4944 : ℚ))),
  (((38.1100 : ℚ), (-122.2400 : ℚ)), ((38.5816 : ℚ), (-121.4944 : ℚ)))
]

/-- Delivery pairs along I-880 from route_data.py. -/
def i880_delivery_routes : List DeliveryPair := [
  (((37.8044 : ℚ), (-122.2712 : ℚ)), ((37.7300 : ℚ), (-122.2100 : ℚ))),
  (((37.7900 : ℚ), (-122.2600 : ℚ)), ((37.7000 : ℚ), (-122.1900 : ℚ))),
  (((37.7700 : ℚ), (-122.2400 : ℚ)), ((37.6700 : ℚ), (-122.1500 : ℚ))),
  (((37.7300 : ℚ), (-122.2100 : ℚ)), ((37.6300 : ℚ), (-122.1200 : ℚ))),
  (((37.7000 : ℚ), (-122.1900 : ℚ)), ((37.6000 : ℚ), (-122.0700 : ℚ))),
  (((37.6700 : ℚ), (-122.1500 : ℚ)), ((37.5500 : ℚ), (-122.0400 : ℚ))),
  (((37.6300 : ℚ), (-122.1200 : ℚ)), ((37.5200 : ℚ), (-122.0000 : ℚ))),
  (((37.6000 : ℚ), (-122.0700 : ℚ)), ((37.4700 : ℚ), (-121.9600 : ℚ))),
  (((37.5500 : ℚ), (-122.0400 : ℚ)), ((37.4400 : ℚ), (-121.9200 : ℚ))),
  (((37.5200 : ℚ), (-122.0000 : ℚ)), ((37.4000 : ℚ), (-121.9200 : ℚ))),
  (((37.4700 : ℚ), (-121.9600 : ℚ)), ((37.3500 : ℚ), (-121.9100 : ℚ))),
  (((37.4400 : ℚ), (-121.9200 : ℚ)), ((37.3382 : ℚ), (-121.8863 : ℚ))),
  (((37.8044 : ℚ), (-122.2712 : ℚ)), ((37.3382 : ℚ), (-121.8863 : ℚ))),
  (((37.7300 : ℚ), (-122.2100 : ℚ)), ((37.3382 : ℚ), (-121.8863 : ℚ))),
  (((37.6300 : ℚ), (-122.1200 : ℚ)), ((37.3382 : ℚ), (-121.8863 : ℚ))),
  (((37.5500 : ℚ), (-122.0400 : ℚ)), ((37.3382 : ℚ), (-121.8863 : ℚ)))
]

/-- `anchor_highway_routes` from `route_data.py`: named anchor polylines. -/
def anchor_highway_routes : List (String × List LatLon) := [
  ("sf_to_sj_us101_anchor", sf_to_sj_us101_anchors),
  ("sf_to_sj_i280_anchor", sf_to_sj_i280_anchors),
  ("sf_to_sac_i80_anchor", sf_to_sac_i80_anchors),
  ("oakland_to_sj_i880_anchor", oakland_to_sj_i880_anchors)
]

/-- `base_highway_routes` as finally bound in `route_data.py` (lines 282-287,
which shadow the earlier binding at line 150 with equal values):
anchors densified with 4 points per segment. -/
def base_highway_routes : List (String × List LatLon) := [
  ("sf_to_sj_us101", densify_polyline sf_to_sj_us101_anchors 4),
  ("sf_to_sj_i280", densify_polyline sf_to_sj_i280_anchors 4),
  ("sf_to_sac_i80", densify_polyline sf_to_sac_i80_anchors 4),
  ("oakland_to_sj_i880", densify_polyline oakland_to_sj_i880_anchors 4)
]

/-- `hd_highway_routes` as finally bound in `route_data.py` (lines 290-295,
shadowing the earlier binding at line 158): anchors densified with 10 points
per segment. -/
def hd_highway_routes : List (String × List LatLon) := [
  ("sf_to_sj_us101_hd", densify_polyline sf_to_sj_us101_anchors 10),
  ("sf_to_sj_i280_hd", densify_polyline sf_to_sj_i280_anchors 10),
  ("sf_to_sac_i80_hd", densify_polyline sf_to_sac_i80_anchors 10),
  ("oakland_to_sj_i880_hd", densify_polyline oakland_to_sj_i880_anchors 10)
]

/-- The earlier, shadowed `hd_highway_routes` binding of `route_data.py` line
158: the base routes densified a second time with 10 points per segment. -/
def hd_highway_routes_shadowed : List (String × List LatLon) := [
  ("sf_to_sj_us101_hd", densify_polyline (densify_polyline sf_to_sj_us101_anchors 4) 10),
  ("sf_to_sj_i280_hd", densify_polyline (densify_polyline sf_to_sj_i280_anchors 4) 10),
  ("sf_to_sac_i80_hd", densify_polyline (densify_polyline sf_to_sac_i80_anchors 4) 10),
  ("oakland_to_sj_i880_hd", densify_polyline (densify_polyline oakland_to_sj_i880_anchors 4) 10)
]

/-- `delivery_route_pairs` from `route_data.py`: the combined dictionary, in
insertion order. -/
def delivery_route_pairs : List (String × List DeliveryPair) := [
  ("us101_deliveries", us101_delivery_routes),
  ("i280_deliveries", i280_delivery_routes),
  ("i80_deliveries", i80_delivery_routes),
  ("i880_deliveries", i880_delivery_routes)
]

/-- `get_all_delivery_pairs` from `route_data.py`: extends an accumulator with
each value of `delivery_route_pairs` in dictionary iteration order. -/
def get_all_delivery_pairs : List DeliveryPair :=
  delivery_route_pairs.foldl (fun acc p => acc ++ p.2) []

/-- `get_delivery_pairs_for_route` from `route_data.py`: looks the route name
up in a four-entry mapping and raises `ValueError` for unknown names. -/
def get_delivery_pairs_for_route (route_name : String) : Except String (List DeliveryPair) :=
  if route_name = "sf_to_sj_us101" then .ok us101_delivery_routes
  else if route_name = "sf_to_sj_i280" then .ok i280_delivery_routes
  else if route_name = "sf_to_sac_i80" then .ok i80_delivery_routes
  else if route_name = "oakland_to_sj_i880" then .ok i880_delivery_routes
  else .error ("Unknown route: " ++ route_name)

/-- C7: every path the program supplies to the core has at least two points:
each of the four anchor routes, and every value of `anchor_highway_routes`,
`base_highway_routes` and `hd_highway_routes` (including the shadowed earlier
`hd` binding). -/
theorem routes_have_at_least_two_points :
    2 ≤ sf_to_sj_us101_anchors.length ∧
    2 ≤ sf_to_sj_i280_anchors.length ∧
    2 ≤ sf_to_sac_i80_anchors.length ∧
    2 ≤ oakland_to_sj_i880_anchors.length ∧
    (∀ r ∈ anchor_highway_routes, 2 ≤ r.2.length) ∧
    (∀ r ∈ base_highway_routes, 2 ≤ r.2.length) ∧
    (∀ r ∈ hd_highway_routes, 2 ≤ r.2.length) ∧
    (∀ r ∈ hd_highway_routes_shadowed, 2 ≤ r.2.length) := by
  decide

/-- C10: `get_delivery_pairs_for_route` fails exactly on route names outside
the four known ones, returns the corresponding hardcoded list for each known
name, and `get_all_delivery_pairs` is the concatenation of the four delivery
lists in the dictionary insertion order of `delivery_route_pairs`. -/
theorem delivery_pair_accessors_spec :
    (∀ name : String,
      (∃ e, get_delivery_pairs_for_route name = .error e) ↔
        name ∉ (["sf_to_sj_us101", "sf_to_sj_i280", "sf_to_sac_i80",
          "oakland_to_sj_i880"] : List String)) ∧
    get_delivery_pairs_for_route "sf_to_sj_us101" = .ok us101_delivery_routes ∧
    get_delivery_pairs_for_route "sf_to_sj_i280" = .ok i280_delivery_routes ∧
    get_delivery_pairs_for_route "sf_to_sac_i80" = .ok i80_delivery_routes ∧
    get_delivery_pairs_for_route "oakland_to_sj_i880" = .ok i880_delivery_routes ∧
    get_all_delivery_pairs =
      us101_delivery_routes ++ i280_delivery_routes ++ i80_delivery_routes ++
        i880_delivery_routes := by
  refine ⟨?_, rfl, rfl, rfl, rfl, ?_⟩
  · intro name
    unfold get_delivery_pairs_for_route
    by_cases h1 : name = "sf_to_sj_us101" <;>
      by_cases h2 : name = "sf_to_sj_i280" <;>
        by_cases h3 : name = "sf_to_sac_i80" <;>
          by_cases h4 : name = "oakland_to_sj_i880" <;>
            simp [h1, h2, h3, h4]
  · simp [get_all_delivery_pairs, delivery_route_pairs, List.append_assoc]

/-- Modelled from the spec: the corridor core is supplied by callers at run
time and is absent from the sources, so it is reconstructed from sections
4.2-4.4 of the specification. A pair of projected endpoints, each given as
(along-axis, cross-axis) coordinates in the rotated frame. -/
abbrev ProjPair : Type := (ℚ × ℚ) × (ℚ × ℚ)

/-- Modelled from the spec: the governing quantity of a pair for the
percentile method, `max(abs v_origin, abs v_destination)` of the cross-axis
coordinates of its two endpoints. -/
def governing (p : ProjPair) : ℚ := max |p.1.2| |p.2.2|

/-- Modelled from the spec: a corridor in the rotated frame, as its along-axis
center and the two half-extents. The cross-axis center is the heading line
through the projection origin, at cross-axis coordinate 0. -/
structure Corridor where
  centerU : ℚ
  halfU : ℚ
  halfV : ℚ
deriving DecidableEq

/-- Modelled from the spec, section 7: the error kinds of the corridor core. -/
inductive CorridorError where
  | insufficientPairs
  | degenerateRoute
  | invalidInput
deriving DecidableEq

/-- Minimum of a list of rationals, 0 for the empty list (used only on
nonempty lists). -/
def listMinQ : List ℚ → ℚ
  | [] => 0
  | a :: l => l.foldl min a

/-- Maximum of a list of rationals, 0 for the empty list. -/
def listMaxQ : List ℚ → ℚ
  | [] => 0
  | a :: l => l.foldl max a

/-- Modelled from the spec: `compute_oriented_corridor` (section 4.3,
percentile method only, operating on already-projected inputs). It fails with
`InsufficientPairsError` when `min_pairs` exceeds the number of pairs and with
`InvalidInputError` on a non-positive `min_pairs` or a path of fewer than two
points; otherwise the along-axis extent is half the span of the projected
path plus a caller-supplied margin, and the cross-axis half-extent is the
`min_pairs`-th smallest governing per-pair maximum. -/
def compute_oriented_corridor (pathProj : List (ℚ × ℚ)) (pairs : List ProjPair)
    (min_pairs : ℤ) (margin : ℚ) : Except CorridorError Corridor :=
  if (pairs.length : ℤ) < min_pairs then .error .insufficientPairs
  else if min_pairs ≤ 0 then .error .invalidInput
  else if pathProj.length < 2 then .error .invalidInput
  else
    .ok ⟨(listMinQ (pathProj.map Prod.fst) + listMaxQ (pathProj.map Prod.fst)) / 2,
      (listMaxQ (pathProj.map Prod.fst) - listMinQ (pathProj.map Prod.fst)) / 2 + margin,
      (List.insertionSort (· ≤ ·) (pairs.map governing)).getD (min_pairs - 1).toNat 0⟩

/-- Modelled from the spec, section 4.4: the containment test of a projected
point, with inclusive bounds on both axes. -/
def inCorridor (c : Corridor) (pt : ℚ × ℚ) : Bool :=
  decide (|pt.1 - c.centerU| ≤ c.halfU) && decide (|pt.2| ≤ c.halfV)

/-- Modelled from the spec, section 4.4: `filter_pairs_in_corridor`, keeping
the pairs whose endpoints pass the containment test (both endpoints when
`require_both` is set, at least one otherwise), in input order. -/
def filter_pairs_in_corridor (pairs : List ProjPair) (c : Corridor)
    (require_both : Bool) : List ProjPair :=
  pairs.filter fun p =>
    if require_both then inCorridor c p.1 && inCorridor c p.2
    else inCorridor c p.1 || inCorridor c p.2

/-- Modelled from the spec, section 4.2: projection of a planar point into
the rotated frame of a heading with direction cosine `c` and sine `s`,
relative to a reference origin. -/
def project (c s : ℚ) (origin p : ℚ × ℚ) : ℚ × ℚ :=
  (c * (p.1 - origin.1) + s * (p.2 - origin.2),
   -s * (p.1 - origin.1) + c * (p.2 - origin.2))

/-- Modelled from the spec, section 4.2: the inverse projection, rotating an
(along, cross) coordinate back and translating by the same origin. -/
def unproject (c s : ℚ) (origin uv : ℚ × ℚ) : ℚ × ℚ :=
  (origin.1 + c * uv.1 - s * uv.2, origin.2 + s * uv.1 + c * uv.2)

/-- C3: whenever `min_pairs` exceeds the number of supplied pairs,
`compute_oriented_corridor` reports `InsufficientPairsError` (so it never
silently returns all pairs). -/
theorem compute_corridor_insufficient (pathProj : List (ℚ × ℚ)) (pairs : List ProjPair)
    (min_pairs : ℤ) (margin : ℚ) (h : (pairs.length : ℤ) < min_pairs) :
    compute_oriented_corridor pathProj pairs min_pairs margin =
      .error .insufficientPairs := by
  rw [compute_oriented_corridor, if_pos h]

theorem compute_corridor_insufficient_witness :
    compute_oriented_corridor [] [] 1 0 = .error .insufficientPairs :=
  compute_corridor_insufficient [] [] 1 0 (by decide)

/-- C4: projecting a point into the rotated frame and back with the same
heading (unit direction `(c, s)`) and the same origin reproduces the point
exactly, hence in particular within a 1e-9 tolerance on both components. -/
theorem project_unproject_roundtrip (c s : ℚ) (h : c ^ 2 + s ^ 2 = 1)
    (origin p : ℚ × ℚ) :
    unproject c s origin (project c s origin p) = p ∧
    |(unproject c s origin (project c s origin p)).1 - p.1| ≤ 1 / 1000000000 ∧
    |(unproject c s origin (project c s origin p)).2 - p.2| ≤ 1 / 1000000000 := by
  have h1 : (unproject c s origin (project c s origin p)).1 = p.1 := by
    simp only [unproject, project]
    linear_combination (p.1 - origin.1) * h
  have h2 : (unproject c s origin (project c s origin p)).2 = p.2 := by
    simp only [unproject, project]
    linear_combination (p.2 - origin.2) * h
  refine ⟨Prod.ext_iff.mpr ⟨h1, h2⟩, ?_, ?_⟩
  · rw [h1]
    simp
  · rw [h2]
    simp

theorem project_unproject_roundtrip_witness :
    unproject (3 / 5) (4 / 5) ((1 : ℚ), (2 : ℚ))
        (project (3 / 5) (4 / 5) ((1 : ℚ), (2 : ℚ)) ((37 : ℚ), (-122 : ℚ))) =
      ((37 : ℚ), (-122 : ℚ)) ∧
    |(unproject (3 / 5) (4 / 5) ((1 : ℚ), (2 : ℚ))
        (project (3 / 5) (4 / 5) ((1 : ℚ), (2 : ℚ)) ((37 : ℚ), (-122 : ℚ)))).1 - 37| ≤
      1 / 1000000000 ∧
    |(unproject (3 / 5) (4 / 5) ((1 : ℚ), (2 : ℚ))
        (project (3 / 5) (4 / 5) ((1 : ℚ), (2 : ℚ)) ((37 : ℚ), (-122 : ℚ)))).2 - (-122)| ≤
      1 / 1000000000 :=
  project_unproject_roundtrip (3 / 5) (4 / 5) (by norm_num) ((1 : ℚ), (2 : ℚ))
    ((37 : ℚ), (-122 : ℚ))

lemma sorted_countP_ge_rank (l : List ℚ) (hs : l.Sorted (· ≤ ·)) (i : ℕ)
    (hi : i < l.length) :
    i + 1 ≤ l.countP fun x => decide (x ≤ l.get ⟨i, hi⟩) := by
  have h0 : 0 < (l.drop i).length := by
    rw [List.length_drop]
    omega
  have hvmem : l.get ⟨i, hi⟩ ∈ l.drop i := by
    have hg : (l.drop i).get ⟨0, h0⟩ = l.get ⟨i, hi⟩ := by simp
    rw [← hg]
    exact List.get_mem _ _ _
  have hall : ∀ x ∈ l.take i, decide (x ≤ l.get ⟨i, hi⟩) = true := fun x hx =>
    decide_eq_true (hs.rel_of_mem_take_of_mem_drop hx hvmem)
  have htake := List.countP_eq_length.mpr hall
  rw [List.length_take] at htake
  have hdrop : 0 < (l.drop i).countP fun x => decide (x ≤ l.get ⟨i, hi⟩) :=
    List.countP_pos_iff.mpr ⟨_, hvmem, decide_eq_true le_rfl⟩
  have hsplit : (l.take i).countP (fun x => decide (x ≤ l.get ⟨i, hi⟩)) +
      (l.drop i).countP (fun x => decide (x ≤ l.get ⟨i, hi⟩)) =
      l.countP fun x => decide (x ≤ l.get ⟨i, hi⟩) := by
    rw [← List.countP_append, List.take_append_drop]
  omega

lemma sorted_countP_lt_rank (l : List ℚ) (hs : l.Sorted (· ≤ ·)) (i : ℕ)
    (hi : i < l.length) :
    (l.countP fun x => decide (x < l.get ⟨i, hi⟩)) ≤ i := by
  have hdrop : (l.drop i).countP (fun x => decide (x < l.get ⟨i, hi⟩)) = 0 := by
    rw [List.countP_eq_zero]
    intro a ha
    obtain ⟨j, hj, rfl⟩ := List.getElem_of_mem ha
    simp only [List.getElem_drop, decide_eq_true_eq, not_lt]
    have hj2 : i + j < l.length := by
      rw [List.length_drop] at hj
      omega
    have := hs.rel_get_of_le (a := ⟨i, hi⟩) (b := ⟨i + j, hj2⟩) (by simp)
    simpa using this
  have htake : (l.take i).countP (fun x => decide (x < l.get ⟨i, hi⟩)) ≤ i := by
    have := List.countP_le_length
      (p := fun x => decide (x < l.get ⟨i, hi⟩)) (l := l.take i)
    rw [List.length_take] at this
    omega
  have hsplit : (l.take i).countP (fun x => decide (x < l.get ⟨i, hi⟩)) +
      (l.drop i).countP (fun x => decide (x < l.get ⟨i, hi⟩)) =
      l.countP fun x => decide (x < l.get ⟨i, hi⟩) := by
    rw [← List.countP_append, List.take_append_drop]
  omega

/-- C1 (amended): when `compute_oriented_corridor` succeeds and every pair
endpoint lies within the returned along-axis bounds, filtering with
`require_both` keeps at least `min_pairs` pairs. The along-axis restriction
is forced: the along-extent is sized from the path span alone (spec section
4.3), so a pair beyond it is excluded regardless of the cross-axis sizing. -/
theorem corridor_guarantee (pathProj : List (ℚ × ℚ)) (pairs : List ProjPair)
    (min_pairs : ℤ) (margin : ℚ) (c : Corridor)
    (hok : compute_oriented_corridor pathProj pairs min_pairs margin = .ok c)
    (halong : ∀ p ∈ pairs,
      |p.1.1 - c.centerU| ≤ c.halfU ∧ |p.2.1 - c.centerU| ≤ c.halfU) :
    min_pairs ≤ ((filter_pairs_in_corridor pairs c true).length : ℤ) := by
  rw [compute_oriented_corridor] at hok
  by_cases h1 : (pairs.length : ℤ) < min_pairs
  · rw [if_pos h1] at hok
    exact absurd hok (by simp)
  · rw [if_neg h1] at hok
    by_cases h2 : min_pairs ≤ 0
    · rw [if_pos h2] at hok
      exact absurd hok (by simp)
    rw [if_neg h2] at hok
    by_cases h3 : pathProj.length < 2
    · rw [if_pos h3] at hok
      exact absurd hok (by simp)
    rw [if_neg h3] at hok
    injection hok with hc
    subst hc
    set gl := pairs.map governing with hgl
    set srt := List.insertionSort (· ≤ ·) gl with hsrt
    have hperm : srt.Perm gl := List.perm_insertionSort _ _
    have hsorted : srt.Sorted (· ≤ ·) := List.sorted_insertionSort _ _
    have hlen : srt.length = pairs.length := by rw [hperm.length_eq, hgl, List.length_map]
    have hidx : (min_pairs - 1).toNat < srt.length := by
      rw [hlen]
      omega
    have hrank := sorted_countP_ge_rank srt hsorted (min_pairs - 1).toNat hidx
    have hgetD : srt.getD (min_pairs - 1).toNat 0 = srt.get ⟨(min_pairs - 1).toNat, hidx⟩ := by
      rw [List.getD_eq_getElem?_getD, List.getElem?_eq_getElem hidx]
      rfl
    set v := srt.get ⟨(min_pairs - 1).toNat, hidx⟩ with hvdef
    have hcount1 : (min_pairs - 1).toNat + 1 ≤ gl.countP fun x => decide (x ≤ v) := by
      rw [← hperm.countP_eq]
      exact hrank
    have hcount2 : gl.countP (fun x => decide (x ≤ v)) =
        pairs.countP fun p => decide (governing p ≤ v) := by
      rw [hgl, List.countP_map]
      rfl
    have hmono : pairs.countP (fun p => decide (governing p ≤ v)) ≤
        pairs.countP fun p =>
          inCorridor ⟨(listMinQ (pathProj.map Prod.fst) + listMaxQ (pathProj.map Prod.fst)) / 2,
            (listMaxQ (pathProj.map Prod.fst) - listMinQ (pathProj.map Prod.fst)) / 2 + margin,
            srt.getD (min_pairs - 1).toNat 0⟩ p.1 &&
          inCorridor ⟨(listMinQ (pathProj.map Prod.fst) + listMaxQ (pathProj.map Prod.fst)) / 2,
            (listMaxQ (pathProj.map Prod.fst) - listMinQ (pathProj.map Prod.fst)) / 2 + margin,
            srt.getD (min_pairs - 1).toNat 0⟩ p.2 := by
      apply List.countP_mono_left
      intro p hp hgov
      have hg : governing p ≤ v := of_decide_eq_true hgov
      have hvo : |p.1.2| ≤ v := le_trans (le_max_left _ _) hg
      have hvd : |p.2.2| ≤ v := le_trans (le_max_right _ _) hg
      obtain ⟨hu1, hu2⟩ := halong p hp
      simp only [inCorridor, Bool.and_eq_true, decide_eq_true_eq]
      rw [hgetD]
      exact ⟨⟨hu1, hvo⟩, ⟨hu2, hvd⟩⟩
    have hfil : (filter_pairs_in_corridor pairs
        ⟨(listMinQ (pathProj.map Prod.fst) + listMaxQ (pathProj.map Prod.fst)) / 2,
          (listMaxQ (pathProj.map Prod.fst) - listMinQ (pathProj.map Prod.fst)) / 2 + margin,
          srt.getD (min_pairs - 1).toNat 0⟩ true).length =
        pairs.countP fun p =>
          inCorridor ⟨(listMinQ (pathProj.map Prod.fst) + listMaxQ (pathProj.map Prod.fst)) / 2,
            (listMaxQ (pathProj.map Prod.fst) - listMinQ (pathProj.map Prod.fst)) / 2 + margin,
            srt.getD (min_pairs - 1).toNat 0⟩ p.1 &&
          inCorridor ⟨(listMinQ (pathProj.map Prod.fst) + listMaxQ (pathProj.map Prod.fst)) / 2,
            (listMaxQ (pathProj.map Prod.fst) - listMinQ (pathProj.map Prod.fst)) / 2 + margin,
            srt.getD (min_pairs - 1).toNat 0⟩ p.2 := by
      rw [filter_pairs_in_corridor, ← List.countP_eq_length_filter]
      simp
    rw [hfil]
    omega

/-- C1 counterexample: a feasible positive request (`min_pairs = 1`, one pair)
where the composition keeps fewer than `min_pairs` pairs, because the single
pair lies beyond the along-axis extent derived from the path span. -/
theorem corridor_guarantee_counterexample :
    compute_oriented_corridor [((0 : ℚ), (0 : ℚ)), ((10 : ℚ), (0 : ℚ))]
      [(((100 : ℚ), (0 : ℚ)), ((100 : ℚ), (0 : ℚ)))] 1 1 = .ok ⟨5, 6, 0⟩ ∧
    ((filter_pairs_in_corridor [(((100 : ℚ), (0 : ℚ)), ((100 : ℚ), (0 : ℚ)))]
      ⟨5, 6, 0⟩ true).length : ℤ) < 1 := by
  constructor
  · norm_num [compute_oriented_corridor, listMinQ, listMaxQ, governing,
      List.insertionSort, List.orderedInsert, abs_of_nonneg, abs_of_nonpos, max_def]
  · norm_num [filter_pairs_in_corridor, inCorridor, List.filter_cons, Bool.and_eq_true,
      decide_eq_true_eq, abs_of_nonneg, abs_of_nonpos]

theorem corridor_guarantee_witness :
    (2 : ℤ) ≤ ((filter_pairs_in_corridor
      [(((2 : ℚ), (1 / 2 : ℚ)), ((8 : ℚ), (1 / 4 : ℚ))),
       (((3 : ℚ), (2 : ℚ)), ((9 : ℚ), (1 : ℚ)))] ⟨5, 6, 2⟩ true).length : ℤ) :=
  corridor_guarantee [((0 : ℚ), (0 : ℚ)), ((10 : ℚ), (0 : ℚ))]
    [(((2 : ℚ), (1 / 2 : ℚ)), ((8 : ℚ), (1 / 4 : ℚ))),
     (((3 : ℚ), (2 : ℚ)), ((9 : ℚ), (1 : ℚ)))] 2 1 ⟨5, 6, 2⟩
    (by norm_num [compute_oriented_corridor, listMinQ, listMaxQ, governing,
      List.insertionSort, List.orderedInsert, abs_of_nonneg, abs_of_nonpos, max_def])
    (by
      intro p hp
      simp only [List.mem_cons, List.not_mem_nil, or_false] at hp
      rcases hp with rfl | rfl <;>
        norm_num [abs_of_nonneg, abs_of_nonpos])

/-- C2: on success of the percentile method, the returned cross-axis
half-extent is the `min_pairs`-th smallest of the per-pair governing maxima
(the entry at rank `min_pairs` of any ascending sorted arrangement of them),
and shrinking it by any positive amount drops the number of pairs whose two
endpoints both satisfy the cross-axis bound below `min_pairs`. -/
theorem percentile_extent_rank_and_minimal (pathProj : List (ℚ × ℚ))
    (pairs : List ProjPair) (min_pairs : ℤ) (margin : ℚ) (c : Corridor)
    (hok : compute_oriented_corridor pathProj pairs min_pairs margin = .ok c) :
    (∀ l : List ℚ, l.Perm (pairs.map governing) → l.Sorted (· ≤ ·) →
      c.halfV = l.getD (min_pairs - 1).toNat 0) ∧
    (∀ ε : ℚ, 0 < ε →
      ((pairs.countP fun p =>
        decide (|p.1.2| ≤ c.halfV - ε ∧ |p.2.2| ≤ c.halfV - ε)) : ℤ) < min_pairs) := by
  rw [compute_oriented_corridor] at hok
  by_cases h1 : (pairs.length : ℤ) < min_pairs
  · rw [if_pos h1] at hok
    exact absurd hok (by simp)
  · rw [if_neg h1] at hok
    by_cases h2 : min_pairs ≤ 0
    · rw [if_pos h2] at hok
      exact absurd hok (by simp)
    rw [if_neg h2] at hok
    by_cases h3 : pathProj.length < 2
    · rw [if_pos h3] at hok
      exact absurd hok (by simp)
    rw [if_neg h3] at hok
    injection hok with hc
    subst hc
    set gl := pairs.map governing with hgl
    set srt := List.insertionSort (· ≤ ·) gl with hsrt
    have hperm : srt.Perm gl := List.perm_insertionSort _ _
    have hsorted : srt.Sorted (· ≤ ·) := List.sorted_insertionSort _ _
    have hlen : srt.length = pairs.length := by rw [hperm.length_eq, hgl, List.length_map]
    have hidx : (min_pairs - 1).toNat < srt.length := by
      rw [hlen]
      omega
    have hgetD : srt.getD (min_pairs - 1).toNat 0 = srt.get ⟨(min_pairs - 1).toNat, hidx⟩ := by
      rw [List.getD_eq_getElem?_getD, List.getElem?_eq_getElem hidx]
      rfl
    constructor
    · intro l hlperm hlsorted
      have hls : l = srt :=
        List.eq_of_perm_of_sorted (hlperm.trans hperm.symm) hlsorted hsorted
      rw [hls]
    · intro ε hε
      dsimp only at hε ⊢
      have hcongr : pairs.countP (fun p =>
          decide (|p.1.2| ≤ srt.getD (min_pairs - 1).toNat 0 - ε ∧
            |p.2.2| ≤ srt.getD (min_pairs - 1).toNat 0 - ε)) =
          pairs.countP fun p =>
            decide (governing p ≤ srt.getD (min_pairs - 1).toNat 0 - ε) :=
        List.countP_congr fun p hp => by simp [governing, max_le_iff]
      have hmono : pairs.countP (fun p =>
          decide (governing p ≤ srt.getD (min_pairs - 1).toNat 0 - ε)) ≤
          pairs.countP fun p =>
            decide (governing p < srt.get ⟨(min_pairs - 1).toNat, hidx⟩) :=
        List.countP_mono_left fun p hp h => by
          have hle := of_decide_eq_true h
          rw [hgetD] at hle
          exact decide_eq_true (lt_of_le_of_lt hle (by linarith))
      have hmap : pairs.countP (fun p =>
          decide (governing p < srt.get ⟨(min_pairs - 1).toNat, hidx⟩)) =
          gl.countP fun x => decide (x < srt.get ⟨(min_pairs - 1).toNat, hidx⟩) := by
        rw [hgl, List.countP_map]
        rfl
      have hcnt : gl.countP (fun x =>
          decide (x < srt.get ⟨(min_pairs - 1).toNat, hidx⟩)) ≤ (min_pairs - 1).toNat := by
        rw [← hperm.countP_eq]
        exact sorted_countP_lt_rank srt hsorted (min_pairs - 1).toNat hidx
      rw [hcongr]
      omega

theorem percentile_extent_rank_and_minimal_witness :
    (∀ l : List ℚ,
      l.Perm ([(((2 : ℚ), (1 / 2 : ℚ)), ((8 : ℚ), (1 / 4 : ℚ))),
        (((3 : ℚ), (2 : ℚ)), ((9 : ℚ), (1 : ℚ)))].map governing) →
      l.Sorted (· ≤ ·) →
      (Corridor.mk 5 6 2).halfV = l.getD ((2 : ℤ) - 1).toNat 0) ∧
    (∀ ε : ℚ, 0 < ε →
      (([(((2 : ℚ), (1 / 2 : ℚ)), ((8 : ℚ), (1 / 4 : ℚ))),
        (((3 : ℚ), (2 : ℚ)), ((9 : ℚ), (1 : ℚ)))].countP fun p =>
        decide (|p.1.2| ≤ (Corridor.mk 5 6 2).halfV - ε ∧
          |p.2.2| ≤ (Corridor.mk 5 6 2).halfV - ε)) : ℤ) < 2) :=
  percentile_extent_rank_and_minimal [((0 : ℚ), (0 : ℚ)), ((10 : ℚ), (0 : ℚ))]
    [(((2 : ℚ), (1 / 2 : ℚ)), ((8 : ℚ), (1 / 4 : ℚ))),
     (((3 : ℚ), (2 : ℚ)), ((9 : ℚ), (1 : ℚ)))] 2 1 ⟨5, 6, 2⟩
    (by norm_num [compute_oriented_corridor, listMinQ, listMaxQ, governing,
      List.insertionSort, List.orderedInsert, abs_of_nonneg, abs_of_nonpos, max_def])

/-- C5: `filter_pairs_in_corridor` returns a subsequence of its input in the
original order, and is deterministic: equal inputs give equal outputs (the
model is purely functional, so the input list is never mutated). -/
theorem filter_pairs_in_corridor_props (pairs : List ProjPair) (c : Corridor)
    (require_both : Bool) :
    (filter_pairs_in_corridor pairs c require_both).Sublist pairs ∧
    ∀ pairs2 : List ProjPair, pairs2 = pairs →
      filter_pairs_in_corridor pairs2 c require_both =
        filter_pairs_in_corridor pairs c require_both :=
  ⟨List.filter_sublist _, fun _ h => by rw [h]⟩

theorem filter_pairs_in_corridor_props_witness :
    (filter_pairs_in_corridor [(((0 : ℚ), (0 : ℚ)), ((0 : ℚ), (0 : ℚ)))]
      ⟨0, 1, 1⟩ true).Sublist [(((0 : ℚ), (0 : ℚ)), ((0 : ℚ), (0 : ℚ)))] ∧
    ∀ pairs2 : List ProjPair, pairs2 = [(((0 : ℚ), (0 : ℚ)), ((0 : ℚ), (0 : ℚ)))] →
      filter_pairs_in_corridor pairs2 ⟨0, 1, 1⟩ true =
        filter_pairs_in_corridor [(((0 : ℚ), (0 : ℚ)), ((0 : ℚ), (0 : ℚ)))] ⟨0, 1, 1⟩ true :=
  filter_pairs_in_corridor_props [(((0 : ℚ), (0 : ℚ)), ((0 : ℚ), (0 : ℚ)))] ⟨0, 1, 1⟩ true

theorem routes_have_at_least_two_points_witness :
    2 ≤ sf_to_sj_us101_anchors.length :=
  routes_have_at_least_two_points.1

theorem delivery_pair_accessors_spec_witness :
    get_delivery_pairs_for_route "sf_to_sj_us101" = .ok us101_delivery_routes :=
  delivery_pair_accessors_spec.2.1
